import Mathlib

/-!
Shallow embedding of `src/main.go` of the go-todo-cli repository
(a single-user CLI TODO manager persisting one flat file per todo).

Modelling conventions:
* Go `byte` values are `Nat`s; a Go string is its byte sequence (`List Nat`).
* The `todos` directory content is a partial map from the integer id
  (the decimal filename) to the file's bytes: `none` means the file does
  not exist or cannot be opened.
* `stdin` tokens (as read by `fmt.Scanln`) are a `List String`.
* Printing is modelled where a claim needs it (`listTodos` output lines,
  `printHelp` menu lines); other prints are noted in comments only.
-/

namespace TodoCli

/-- Go: `type TODOId uint` (64-bit). Converting a Go `int` to `TODOId`
wraps modulo 2^64. -/
def toTODOId (i : Int) : Nat := (i % (2 : Int) ^ 64).toNat

/-- Go: `type Todo struct { id TODOId; completed bool; title string }`. -/
structure Todo where
  id : Nat
  completed : Bool
  title : List Nat
  deriving DecidableEq

/-- The contents of the `todos` directory: integer id (the decimal file
name both `save` and `LoadTodo` derive via `getFilePath`) mapped to the
file's bytes; `none` when no such file exists. -/
abbrev FS : Type := Nat → Option (List Nat)

/-- The bytes `save` writes (main.go lines 45-54): one flag byte, `0x1`
when `completed` is true and `0x0` otherwise, then the raw title bytes —
no length prefix, no terminator. -/
def encode (todo : Todo) : List Nat :=
  (if todo.completed then 1 else 0) :: todo.title

/-- Go: `func (todo Todo) save()` (lines 36-55) — creates/truncates
`todos/<id>` and writes `encode todo`. (The `log.Fatal` path on a file
creation failure is an environment failure outside this model.) -/
def Todo.save (todo : Todo) (fs : FS) : FS :=
  fun i => if i = todo.id then some (encode todo) else fs i

/-- Go: `func (todo Todo) delete()` (lines 57-63) — removes `todos/<id>`;
a removal failure only prints and leaves the state as is, so the success
case shown here is the state change. -/
def Todo.delete (todo : Todo) (fs : FS) : FS :=
  fun i => if i = todo.id then none else fs i

/-- The title-reading loop of `LoadTodo` (lines 140-147): each iteration
reads up to `chunk` bytes (the source buffer is 64 bytes) and appends what
was read, until EOF. `fuel` bounds the number of loop iterations; every
iteration consumes at least one remaining byte, so `length` many
iterations always reach EOF (`readAll` below supplies exactly that). -/
def readLoop (chunk : Nat) : Nat → List Nat → List Nat
  | _, [] => []
  | 0, _ => []
  | fuel + 1, b :: rest =>
    b :: (rest.take (chunk - 1) ++ readLoop chunk fuel (rest.drop (chunk - 1)))

/-- The complete chunked read of the remaining file bytes. -/
def readAll (chunk : Nat) (bytes : List Nat) : List Nat :=
  readLoop chunk bytes.length bytes

/-- The flag decoding of `LoadTodo` (lines 133-138): the first byte is read
into a zero-initialised 1-byte buffer (an empty file leaves it `0`), then
tested with `completedByte[0]&0x1 == 0x1`. -/
def decodeCompleted (bytes : List Nat) : Bool :=
  match bytes with
  | [] => false
  | b :: _ => b &&& 1 == 1

/-- The decoding `LoadTodo` applies to a file's bytes (lines 133-147):
the completion flag from byte 0, then the title reassembled from 64-byte
chunked reads of the remainder. -/
def decodeBytes (bytes : List Nat) : Bool × List Nat :=
  (decodeCompleted bytes, readAll 64 (bytes.drop 1))

/-- Go: `func LoadTodo(id TODOId) (*Todo, error)` (lines 125-154): open
`todos/<id>`; `none` models the open failing (the NotFound outcome the
callers print as "Todo not found"); otherwise decode the bytes and attach
the requested id. `LoadTodo` never mutates the filesystem and has no
fatal path. -/
def LoadTodo (fs : FS) (id : Nat) : Option Todo :=
  match fs id with
  | none => none
  | some bytes =>
    some { id := id, completed := (decodeBytes bytes).1, title := (decodeBytes bytes).2 }

/-- ASCII digit test, as matched by `[0-9]`. -/
def isDigitChar (c : Char) : Bool := decide ('0' ≤ c) && decide (c ≤ '9')

/-- Decimal value of a digit string. -/
def digitsToNat (s : List Char) : Nat :=
  s.foldl (fun acc c => acc * 10 + (c.toNat - 48)) 0

/-- The digits part of Go `strconv.Atoi`: nonempty and all ASCII digits. -/
def parseDigits (s : List Char) : Option Nat :=
  if s.isEmpty then none
  else if s.all isDigitChar then some (digitsToNat s) else none

/-- Go `strconv.Atoi` on a 64-bit platform: optional sign, digits only,
and the `int` range check (values outside `[-2^63, 2^63-1]` are an
`ErrRange` error, hence `none`). -/
def atoi (s : List Char) : Option Int :=
  match s with
  | [] => none
  | c :: rest =>
    if c = '-' then
      (parseDigits rest).bind (fun n => if n ≤ 2 ^ 63 then some (-(n : Int)) else none)
    else if c = '+' then
      (parseDigits rest).bind (fun n => if n < 2 ^ 63 then some ((n : Int)) else none)
    else
      (parseDigits (c :: rest)).bind (fun n => if n < 2 ^ 63 then some ((n : Int)) else none)

/-- Go: `func getTodoId() TODOId` (lines 85-100), over the stream of
whitespace-delimited stdin tokens: prompt "Select todo: ", read one token,
`strconv.Atoi` it; on a parse error print "Error reading id: ..." and
`continue` the loop (which re-prompts); on success return `TODOId(idInt)`.
`none` models the token stream running out. -/
def getTodoId : List String → Option (Nat × List String)
  | [] => none
  | tok :: rest =>
    match atoi tok.data with
    | none => getTodoId rest
    | some i => some (toTODOId i, rest)

/-- One entry of Go `os.ReadDir`: its name and whether it is a directory. -/
structure DirEntry where
  name : String
  isDir : Bool
  deriving DecidableEq

/-- Go `regexp.MatchString "^([0-9]+)$"` (line 239): one or more ASCII
digits and nothing else. -/
def matchesIdPattern (s : String) : Bool :=
  !s.data.isEmpty && s.data.all isDigitChar

/-- Go: `func loadAllTodos() []*Todo` (lines 223-260), given the directory
listing: skip sub-directories, skip names not matching `^([0-9]+)$`, skip
names `strconv.Atoi` rejects (out of `int` range), skip ids whose
`LoadTodo` fails, and collect the successfully loaded todos in listing
order. -/
def loadAllTodos (fs : FS) : List DirEntry → List Todo
  | [] => []
  | e :: rest =>
    if e.isDir then loadAllTodos fs rest
    else if matchesIdPattern e.name then
      match atoi e.name.data with
      | none => loadAllTodos fs rest
      | some i =>
        match LoadTodo fs (toTODOId i) with
        | none => loadAllTodos fs rest
        | some todo => todo :: loadAllTodos fs rest
    else loadAllTodos fs rest

/-- The loop body of the partition inside `listTodos` (lines 268-274):
append the todo to the completed or the uncompleted bucket. -/
def partitionStep (acc : List Todo × List Todo) (todo : Todo) : List Todo × List Todo :=
  if todo.completed then (acc.1 ++ [todo], acc.2) else (acc.1, acc.2 ++ [todo])

/-- The partition pass of `listTodos` (lines 265-274): a single pass
producing `(completedTodos, uncompletedTodos)`. -/
def partitionTodos (todos : List Todo) : List Todo × List Todo :=
  todos.foldl partitionStep ([], [])

/-- One printed line of `listTodos`: a `"<N> uncompleted todos:"` header,
a `"<N> completed todos:"` header, a `"<id>\t<title>"` todo line, or the
blank separator. -/
inductive OutLine where
  | uncompletedHeader (n : Nat)
  | completedHeader (n : Nat)
  | todoLine (id : Nat) (title : List Nat)
  | blank
  deriving DecidableEq

/-- Go: `func listTodos(includeUncomplete, includeComplete bool)` (lines
262-293), as the sequence of lines it prints for a given directory state. -/
def listTodos (fs : FS) (entries : List DirEntry)
    (includeUncomplete includeComplete : Bool) : List OutLine :=
  let p := partitionTodos (loadAllTodos fs entries)
  (if includeUncomplete then
    OutLine.uncompletedHeader p.2.length :: p.2.map (fun t => OutLine.todoLine t.id t.title)
  else []) ++
  (if includeUncomplete && includeComplete then [OutLine.blank] else []) ++
  (if includeComplete then
    OutLine.completedHeader p.1.length :: p.1.map (fun t => OutLine.todoLine t.id t.title)
  else [])

/-- Go: `func createTodoItem()` (lines 156-168): `randVal` stands for the
value returned by `rand.Intn(1000)` (the theorems assume it lies in
`[0, 1000)` as `Intn` guarantees); the new todo is built with that id,
the read title and `completed: false`, then saved. Returns the todo and
the new directory state. -/
def createTodoItem (fs : FS) (randVal : Nat) (title : List Nat) : Todo × FS :=
  (⟨randVal, false, title⟩, Todo.save ⟨randVal, false, title⟩ fs)

/-- Go: `func printHelp()` (lines 69-83), as its printed lines. -/
def printHelp : List String :=
  ["Select action:",
   "1: List all TODOs",
   "2: Add new TODO",
   "3: Complete TODO",
   "4: Uncomplete TODO",
   "5: Delete TODO",
   "6: List completed TODOs",
   "7: List uncompleted TODOs",
   "8: Edit TODO",
   "9: Show this help",
   "0: Exit"]

/-- The operation the main loop runs for one action code (which function
the `switch` calls, and with which arguments). -/
inductive Command where
  | listTodos (includeUncomplete includeComplete : Bool)
  | createTodoItem
  | changeTodoItemState (complete : Bool)
  | deleteTodo
  | editTodo
  | printHelp
  | exitApp
  | unknown
  deriving DecidableEq

/-- The `switch action` of `main` (lines 311-335). -/
def dispatch (action : Int) : Command :=
  if action = 1 then Command.listTodos true true
  else if action = 2 then Command.createTodoItem
  else if action = 3 then Command.changeTodoItemState true
  else if action = 4 then Command.changeTodoItemState false
  else if action = 5 then Command.deleteTodo
  else if action = 6 then Command.listTodos true false
  else if action = 7 then Command.listTodos false true
  else if action = 8 then Command.editTodo
  else if action = 9 then Command.printHelp
  else if action = 0 then Command.exitApp
  else Command.unknown

/-- Modelled from the spec: the operation each help-menu entry describes.
"6: List completed TODOs" describes the completed-only listing and
"7: List uncompleted TODOs" the uncompleted-only listing; every other
entry reads as the operation `main` runs for it. -/
def specMenuCommand (action : Int) : Command :=
  if action = 1 then Command.listTodos true true
  else if action = 2 then Command.createTodoItem
  else if action = 3 then Command.changeTodoItemState true
  else if action = 4 then Command.changeTodoItemState false
  else if action = 5 then Command.deleteTodo
  else if action = 6 then Command.listTodos false true
  else if action = 7 then Command.listTodos true false
  else if action = 8 then Command.editTodo
  else if action = 9 then Command.printHelp
  else if action = 0 then Command.exitApp
  else Command.unknown

/-! ## Helper lemmas -/

/-- With enough fuel, the chunked read loop reassembles exactly the input
bytes, whatever the chunk size. -/
theorem readLoop_id (chunk : Nat) :
    ∀ (fuel : Nat) (l : List Nat), l.length ≤ fuel → readLoop chunk fuel l = l := by
  intro fuel
  induction fuel with
  | zero =>
    intro l h
    cases l with
    | nil => rfl
    | cons b rest => simp at h
  | succ n ih =>
    intro l h
    cases l with
    | nil => rfl
    | cons b rest =>
      rw [readLoop]
      rw [ih (rest.drop (chunk - 1)) (by simp [List.length_drop]; simp at h; omega)]
      rw [List.take_append_drop]

/-- Chunked reading reassembles exactly the input bytes, whatever the
chunk size. -/
theorem readAll_id (chunk : Nat) (l : List Nat) : readAll chunk l = l :=
  readLoop_id chunk l.length l (le_refl _)

/-- Decoding the encoded bytes recovers the completion flag and title. -/
theorem decodeBytes_encode (todo : Todo) :
    decodeBytes (encode todo) = (todo.completed, todo.title) := by
  cases todo with
  | mk id completed title =>
    cases completed <;>
      simp [encode, decodeBytes, decodeCompleted, readAll_id]

/-- Loading right after saving returns the saved todo unchanged. -/
theorem LoadTodo_save (fs : FS) (todo : Todo) :
    LoadTodo (todo.save fs) todo.id = some todo := by
  have h := decodeBytes_encode todo
  simp [LoadTodo, Todo.save, h]

/-- The partition fold with arbitrary starting buckets appends the
completed and the uncompleted todos, in input order, to the respective
bucket. -/
theorem foldl_partitionStep (todos : List Todo) :
    ∀ (c u : List Todo),
      todos.foldl partitionStep (c, u) =
        (c ++ todos.filter (fun t => t.completed),
         u ++ todos.filter (fun t => !t.completed)) := by
  induction todos with
  | nil => intro c u; simp
  | cons t rest ih =>
    intro c u
    cases hc : t.completed <;>
      simp [partitionStep, hc, ih, List.filter_cons]

/-- The enumeration loop, characterised as a filter of the directory
listing followed by parse-and-load. -/
theorem loadAllTodos_eq (fs : FS) : ∀ (entries : List DirEntry),
    loadAllTodos fs entries =
      (entries.filter (fun e => !e.isDir && matchesIdPattern e.name)).filterMap
        (fun e => (atoi e.name.data).bind (fun i => LoadTodo fs (toTODOId i))) := by
  intro entries
  induction entries with
  | nil => rfl
  | cons e rest ih =>
    by_cases hd : e.isDir = true
    · simp [loadAllTodos, List.filter_cons, hd, ih]
    · by_cases hm : matchesIdPattern e.name = true
      · cases ha : atoi e.name.data with
        | none =>
          simp [loadAllTodos, List.filter_cons, List.filterMap_cons, hd, hm, ha, ih]
        | some i =>
          cases hl : LoadTodo fs (toTODOId i) with
          | none =>
            simp [loadAllTodos, List.filter_cons, List.filterMap_cons, hd, hm, ha, hl, ih]
          | some todo =>
            simp [loadAllTodos, List.filter_cons, List.filterMap_cons, hd, hm, ha, hl, ih]
      · simp [loadAllTodos, List.filter_cons, hd, hm, ih]

/-- Every integer `strconv.Atoi` accepts lies in the 64-bit `int` range. -/
theorem atoi_range (s : List Char) (i : Int) (h : atoi s = some i) :
    -(2 ^ 63 : Int) ≤ i ∧ i < 2 ^ 63 := by
  have e1 : (2 : Int) ^ 63 = 9223372036854775808 := by norm_num
  have e2 : (2 : Nat) ^ 63 = 9223372036854775808 := by norm_num
  cases s with
  | nil => simp [atoi] at h
  | cons c rest =>
    simp only [atoi] at h
    split at h
    · rw [Option.bind_eq_some] at h
      obtain ⟨n, hn, hif⟩ := h
      split at hif
      · rename_i hle
        rw [Option.some.injEq] at hif
        subst hif
        rw [e2] at hle
        rw [e1]
        constructor <;> omega
      · cases hif
    · split at h
      · rw [Option.bind_eq_some] at h
        obtain ⟨n, hn, hif⟩ := h
        split at hif
        · rename_i hlt
          rw [Option.some.injEq] at hif
          subst hif
          rw [e2] at hlt
          rw [e1]
          constructor <;> omega
        · cases hif
      · rw [Option.bind_eq_some] at h
        obtain ⟨n, hn, hif⟩ := h
        split at hif
        · rename_i hlt
          rw [Option.some.injEq] at hif
          subst hif
          rw [e2] at hlt
          rw [e1]
          constructor <;> omega
        · cases hif

/-- Converting a negative `int` to the unsigned `TODOId` wraps modulo
2^64. -/
theorem toTODOId_neg (n : Nat) (h1 : 0 < n) (h2 : n ≤ 2 ^ 63) :
    toTODOId (-(n : Int)) = 2 ^ 64 - n := by
  unfold toTODOId
  have e1 : (2 : Int) ^ 64 = 18446744073709551616 := by norm_num
  have e2 : (2 : Nat) ^ 64 = 18446744073709551616 := by norm_num
  have e3 : (2 : Nat) ^ 63 = 9223372036854775808 := by norm_num
  rw [e1, e2]
  rw [e3] at h2
  omega

/-! ## Claim theorems -/

/-- C1: Codec round-trip — decoding the bytes `save` writes for any
completion flag and any title byte string (empty, tabs, multi-byte
unicode: all are just byte sequences) yields exactly the same completed
value and the same title; moreover the chunked read reassembles the byte
string identically for every chunk size, so chunk boundaries are never
observable. -/
theorem decode_encode_roundtrip :
    (∀ (id : Nat) (completed : Bool) (title : List Nat),
      decodeBytes (encode { id := id, completed := completed, title := title }) =
        (completed, title)) ∧
    (∀ (chunk : Nat) (bytes : List Nat), readAll chunk bytes = bytes) :=
  ⟨fun _ _ _ => decodeBytes_encode _, readAll_id⟩

/-- C2: Flag isolation — the decoded `completed` field is true exactly
when the least-significant bit of byte 0 is 1, and any two first bytes
agreeing on bit 0 (i.e. differing only in higher bits) decode to the same
`completed` value. -/
theorem completed_flag_bitmask :
    (∀ (b : Nat) (rest : List Nat), ((decodeBytes (b :: rest)).1 = true ↔ b % 2 = 1)) ∧
    (∀ (b b' : Nat) (rest rest' : List Nat), b % 2 = b' % 2 →
      (decodeBytes (b :: rest)).1 = (decodeBytes (b' :: rest')).1) := by
  constructor
  · intro b rest
    simp [decodeBytes, decodeCompleted, Nat.and_one_is_mod]
  · intro b b' rest rest' h
    simp [decodeBytes, decodeCompleted, Nat.and_one_is_mod, h]

/-- Witness for C2 at bytes 2 and 130 (= 2 with bit 7 set): same decoded
flag. -/
theorem completed_flag_bitmask_witness :
    2 % 2 = 130 % 2 ∧ (decodeBytes [2]).1 = (decodeBytes [130]).1 :=
  ⟨by decide, completed_flag_bitmask.2 2 130 [] [] (by decide)⟩

/-- C3 counterexample: the claim says a parse failure at the
"Select todo: " prompt aborts the whole command without re-prompting; in
the code `getTodoId` loops. Concretely, after the non-integer token "x"
the routine goes on to consume the next token "7" and returns id 7 — it
re-prompted instead of aborting. -/
theorem getTodoId_no_abort_counterexample :
    atoi "x".data = none ∧ getTodoId ["x", "7"] = some (7, []) := by
  decide

/-- C3 amended: when the token read at the "Select todo: " prompt fails
to parse as an integer, `getTodoId` prints an error and re-prompts,
continuing with the remaining token stream; the command proceeds once a
token parses (it does not abort). -/
theorem getTodoId_retries_on_parse_error (tok : String) (rest : List String)
    (h : atoi tok.data = none) :
    getTodoId (tok :: rest) = getTodoId rest := by
  simp [getTodoId, h]

/-- Witness for the amended C3 at tokens ["x2", "9"]. -/
theorem getTodoId_retries_on_parse_error_witness :
    atoi "x2".data = none ∧ getTodoId ["x2", "9"] = getTodoId ["9"] :=
  ⟨by decide, getTodoId_retries_on_parse_error "x2" ["9"] (by decide)⟩

/-- C4: the help menu's entries for actions 6 and 7 describe the opposite
listings of what `main`'s switch dispatches: the menu prints
"6: List completed TODOs" and "7: List uncompleted TODOs", but action 6
runs `listTodos(true, false)` — which prints the *uncompleted* block, as
the concrete evaluation at a one-completed/one-uncompleted state shows —
and action 7 runs `listTodos(false, true)`, printing the *completed*
block. All other action codes match their menu entries. -/
theorem action_dispatch_contradicts_menu :
    printHelp[6]? = some "6: List completed TODOs" ∧
    printHelp[7]? = some "7: List uncompleted TODOs" ∧
    dispatch 6 = Command.listTodos true false ∧
    dispatch 7 = Command.listTodos false true ∧
    specMenuCommand 6 = Command.listTodos false true ∧
    specMenuCommand 7 = Command.listTodos true false ∧
    dispatch 6 ≠ specMenuCommand 6 ∧
    dispatch 7 ≠ specMenuCommand 7 ∧
    dispatch 1 = specMenuCommand 1 ∧ dispatch 2 = specMenuCommand 2 ∧
    dispatch 3 = specMenuCommand 3 ∧ dispatch 4 = specMenuCommand 4 ∧
    dispatch 5 = specMenuCommand 5 ∧ dispatch 8 = specMenuCommand 8 ∧
    dispatch 9 = specMenuCommand 9 ∧ dispatch 0 = specMenuCommand 0 ∧
    listTodos (fun i => if i = 2 then some [0, 66] else if i = 5 then some [1, 67] else none)
        [⟨"2", false⟩, ⟨"5", false⟩] true false =
      [OutLine.uncompletedHeader 1, OutLine.todoLine 2 [66]] ∧
    listTodos (fun i => if i = 2 then some [0, 66] else if i = 5 then some [1, 67] else none)
        [⟨"2", false⟩, ⟨"5", false⟩] false true =
      [OutLine.completedHeader 1, OutLine.todoLine 5 [67]] := by
  decide

/-- C5: Persistence idempotence — for every directory state and every
todo (any id, any flag, any title bytes), saving and then loading that id
returns the very same todo. -/
theorem save_then_load_roundtrip (fs : FS) (todo : Todo) :
    LoadTodo (todo.save fs) todo.id = some todo :=
  LoadTodo_save fs todo

/-- C6: Enumeration filtering — `loadAllTodos` returns exactly the todos
obtained by keeping the non-directory entries whose names match
`^[0-9]+$`, parsing them with `Atoi` and loading them, in listing order;
entries failing any of those steps are silently skipped. On the spec's
example directory ("3" backed by a file, "abc", "3.txt", and a
subdirectory "7") only the todo from file "3" is returned. -/
theorem loadAllTodos_filtering :
    (∀ (fs : FS) (entries : List DirEntry),
      loadAllTodos fs entries =
        (entries.filter (fun e => !e.isDir && matchesIdPattern e.name)).filterMap
          (fun e => (atoi e.name.data).bind (fun i => LoadTodo fs (toTODOId i)))) ∧
    loadAllTodos (fun i => if i = 3 then some [1, 104, 105] else none)
        [⟨"3", false⟩, ⟨"abc", false⟩, ⟨"3.txt", false⟩, ⟨"7", true⟩] =
      [⟨3, true, [104, 105]⟩] := by
  refine ⟨loadAllTodos_eq, ?_⟩
  decide

/-- C7: Partition correctness and stability — the single pass of
`listTodos` puts exactly the completed todos in the completed bucket and
the uncompleted ones in the other, each bucket keeping the input's
relative order (it equals a filter of the input). The spec's example
{1: complete, 2: incomplete, 3: complete} yields completed = [1, 3] and
uncompleted = [2]. -/
theorem partitionTodos_partition :
    (∀ (todos : List Todo),
      partitionTodos todos =
        (todos.filter (fun t => t.completed), todos.filter (fun t => !t.completed))) ∧
    partitionTodos [⟨1, true, []⟩, ⟨2, false, []⟩, ⟨3, true, []⟩] =
      ([⟨1, true, []⟩, ⟨3, true, []⟩], [⟨2, false, []⟩]) := by
  constructor
  · intro todos
    simpa [partitionTodos] using foldl_partitionStep todos [] []
  · decide

/-- C8: Delete-then-load — loading any id whose file does not exist
returns the NotFound outcome (`none`, never a todo and never a fatal
abort; `LoadTodo` is pure, so the directory state is untouched), and in
particular loading `todo.id` right after `delete todo` is NotFound. -/
theorem load_missing_notfound :
    (∀ (fs : FS) (id : Nat), fs id = none → LoadTodo fs id = none) ∧
    (∀ (fs : FS) (todo : Todo), LoadTodo (todo.delete fs) todo.id = none) := by
  constructor
  · intro fs id h
    simp [LoadTodo, h]
  · intro fs todo
    simp [LoadTodo, Todo.delete]

/-- Witness for C8 at the spec's nonexistent id 999999 in the empty
directory. -/
theorem load_missing_notfound_witness :
    ((fun _ => none : FS) 999999 = none) ∧
      LoadTodo (fun _ => none) 999999 = none :=
  ⟨rfl, load_missing_notfound.1 (fun _ => none) 999999 rfl⟩

/-- C9: Create postconditions — for every directory state, every title
and every outcome of the `rand.Intn(1000)` draw, the created todo has its
id in [0, 1000), `completed = false` and the given title, and it is
persisted at once: loading its id from the resulting state returns an
identical record. -/
theorem createTodoItem_postconditions (fs : FS) (randVal : Nat) (title : List Nat)
    (h : randVal < 1000) :
    (createTodoItem fs randVal title).1.id < 1000 ∧
    (createTodoItem fs randVal title).1.completed = false ∧
    (createTodoItem fs randVal title).1.title = title ∧
    LoadTodo (createTodoItem fs randVal title).2 (createTodoItem fs randVal title).1.id =
      some (createTodoItem fs randVal title).1 :=
  ⟨h, rfl, rfl, LoadTodo_save fs ⟨randVal, false, title⟩⟩

/-- Witness for C9: creating "Buy milk" (bytes) with draw 42 in the empty
directory. -/
theorem createTodoItem_postconditions_witness :
    42 < 1000 ∧
    ((createTodoItem (fun _ => none) 42 [66, 117, 121]).1.id < 1000 ∧
     (createTodoItem (fun _ => none) 42 [66, 117, 121]).1.completed = false ∧
     (createTodoItem (fun _ => none) 42 [66, 117, 121]).1.title = [66, 117, 121] ∧
     LoadTodo (createTodoItem (fun _ => none) 42 [66, 117, 121]).2
         (createTodoItem (fun _ => none) 42 [66, 117, 121]).1.id =
       some (createTodoItem (fun _ => none) 42 [66, 117, 121]).1) :=
  ⟨by decide, createTodoItem_postconditions (fun _ => none) 42 [66, 117, 121] (by decide)⟩

/-- C10: a token parsing as a negative integer is not a parse error:
`getTodoId` accepts it, and the `TODOId(idInt)` conversion wraps the
signed value modulo 2^64, so the command proceeds with the huge id
2^64 − n. -/
theorem getTodoId_negative_wraps (tok : String) (rest : List String) (n : Nat)
    (hpos : 0 < n) (h : atoi tok.data = some (-(n : Int))) :
    getTodoId (tok :: rest) = some (2 ^ 64 - n, rest) := by
  have hr := (atoi_range tok.data (-(n : Int)) h).1
  have hle : n ≤ 2 ^ 63 := by
    have e1 : (2 : Int) ^ 63 = 9223372036854775808 := by norm_num
    have e2 : (2 : Nat) ^ 63 = 9223372036854775808 := by norm_num
    rw [e1] at hr
    rw [e2]
    omega
  simp only [getTodoId, h]
  rw [toTODOId_neg n hpos hle]

/-- Witness for C10 at the token "-5": the id becomes 2^64 − 5. -/
theorem getTodoId_negative_wraps_witness :
    0 < 5 ∧ atoi "-5".data = some (-(5 : Int)) ∧
      getTodoId ["-5"] = some (2 ^ 64 - 5, []) :=
  ⟨by decide, by decide, getTodoId_negative_wraps "-5" [] 5 (by decide) (by decide)⟩

end TodoCli
